import Mathlib

/-!
Verification of the boto-ui event dispatch and layout core.

Shallow embedding of the repository's `EventDispatcher` state machine
(`src/unnamed/part_003`, i.e. the current `core/EventDispatcher.hpp`),
of the legacy dispatcher found at `src/include/boto-ui/core/EventDispatcher.hpp`,
and of the `Target` caret/layout model (`src/unnamed/part_001`, `core/Target.hpp`
of the dui generation).  Machine integers (`Uint32` bitmasks, `int` coordinates)
are modelled as `Nat`/`Int`; `std::string` as `String`; the element stack as a
`List` whose head is the `back()` of the C++ `std::vector`.
-/

namespace BotoUI

/-- SDL_Point: a pair of `int` coordinates. -/
structure Pt where
  x : Int
  y : Int
deriving Repr, DecidableEq

/-- SDL_Rect: position and size, `int` fields. -/
structure Rect where
  x : Int
  y : Int
  w : Int
  h : Int
deriving Repr, DecidableEq

/-- SDL_PointInRect: true when the point lies inside the rectangle
(half-open on the right/bottom, as in SDL). -/
def SDL_PointInRect (p : Pt) (r : Rect) : Bool :=
  decide (r.x ≤ p.x) && decide (p.x < r.x + r.w) &&
  decide (r.y ≤ p.y) && decide (p.y < r.y + r.h)

/-- SDL_RectEmpty: a rectangle with nonpositive width or height is empty. -/
def SDL_RectEmpty (r : Rect) : Bool :=
  decide (r.w ≤ 0) || decide (r.h ≤ 0)

/-- SDL_IntersectRect as called by the legacy `check`
(`SDL_IntersectRect(&A, &B, &B)`: the result aliases the second argument).
If either input is empty, SDL only zeroes the result's width and height,
leaving `B`'s position in place; otherwise it writes the literal
intersection (width/height may come out nonpositive when disjoint). -/
def SDL_IntersectRectB (A B : Rect) : Rect :=
  if SDL_RectEmpty A || SDL_RectEmpty B then
    { x := B.x, y := B.y, w := 0, h := 0 }
  else
    let xmin := max A.x B.x
    let xmax := min (A.x + A.w) (B.x + B.w)
    let ymin := max A.y B.y
    let ymax := min (A.y + A.h) (B.y + B.h)
    { x := xmin, y := ymin, w := xmax - xmin, h := ymax - ymin }

/-- Status bit-flags (`core/Status.hpp` / legacy header: `STATUS_HOVERED`,
`STATUS_GRABBED`, `STATUS_FOCUSED`); the dispatcher core never sets
`INPUTING`, so the three used flags are modelled. -/
structure StatusFlags where
  hovered : Bool
  grabbed : Bool
  focused : Bool
deriving Repr, DecidableEq

namespace StatusFlags

def NONE : StatusFlags := ⟨false, false, false⟩
def HOVERED : StatusFlags := ⟨true, false, false⟩
def GRABBED : StatusFlags := ⟨false, true, false⟩
def FOCUSED : StatusFlags := ⟨false, false, true⟩

/-- Embeds `operator|` on status flag sets. -/
def union (a b : StatusFlags) : StatusFlags :=
  ⟨a.hovered || b.hovered, a.grabbed || b.grabbed, a.focused || b.focused⟩

/-- Embeds `flags.reset(mask)`: clear every flag present in `mask`. -/
def without (a mask : StatusFlags) : StatusFlags :=
  ⟨a.hovered && !mask.hovered, a.grabbed && !mask.grabbed, a.focused && !mask.focused⟩

end StatusFlags

/-- Modelled from the spec: the discrete interaction events of
`core/Event.hpp` (the header itself is not in the source tree; the
constructor set is the one used by `part_003` and the widget layer). -/
inductive Event where
  | NONE
  | GRAB
  | ACTION
  | CANCEL
  | FOCUS_GAINED
  | FOCUS_LOST
  | INPUT
  | END_LINE
  | SPACE
  | BACKSPACE
deriving Repr, DecidableEq

/-- Modelled from the spec: the keyboard command enumeration of
`core/Command.hpp` ("activate/enter/space/backspace/escape/none"). -/
inductive Command where
  | NONE
  | ACTION
  | ENTER
  | SPACE
  | BACKSPACE
  | ESCAPE
deriving Repr, DecidableEq

/-- Modelled from the spec: the request tiers of the current dispatcher
(`RequestEvent` in `core/EventDispatcher.hpp`): `NONE < HOVER < GRAB <
FOCUS < INPUT`, as used by `part_003` and `part_005`. -/
inductive RequestEvent where
  | NONE
  | HOVER
  | GRAB
  | FOCUS
  | INPUT
deriving Repr, DecidableEq

/-- Embeds `groupNameSeparator` from `part_003`. -/
def groupNameSeparator : Char := '/'

/-- Embeds `EventTargetState` (part_003): one entry per open nesting level. -/
structure EventTargetState where
  idLength : Nat
  rect : Rect
  status : StatusFlags
  event : Event
deriving Repr, DecidableEq

/-- The `EventDispatcher`'s fields (part_003).  The element stack is a list
whose head is the most recently pushed entry (`back()`). -/
structure EventDispatcher where
  pointerPos : Pt
  pointerPressed : Nat
  pointerReleased : Nat
  idCurrent : String
  hadHover : Bool
  idGrabbed : String
  idFocus : String
  idNextFocus : String
  idLosingFocus : String
  nextCommand : Command
  inputBuffer : String
  elementStack : List EventTargetState
deriving Repr, DecidableEq

namespace EventDispatcher

/-- Embeds `movePointer`. -/
def movePointer (d : EventDispatcher) (pos : Pt) : EventDispatcher :=
  { d with pointerPos := pos }

/-- Embeds `pressPointer`: OR the button bit into the pressed mask
(asserts `button < 32`, so the shift cannot overflow 32 bits). -/
def pressPointer (d : EventDispatcher) (button : Nat) : EventDispatcher :=
  { d with pointerPressed := d.pointerPressed ||| (1 <<< button) }

/-- Embeds `releasePointer` (part_003): OR the button bit into the released mask. -/
def releasePointer (d : EventDispatcher) (button : Nat) : EventDispatcher :=
  { d with pointerReleased := d.pointerReleased ||| (1 <<< button) }

/-- Embeds `command(cmd)`. -/
def command (d : EventDispatcher) (cmd : Command) : EventDispatcher :=
  { d with nextCommand := cmd }

/-- Embeds `input(text)`: resolve a pending SPACE/BACKSPACE against the buffer,
then append the incoming text. -/
def input (d : EventDispatcher) (text : String) : EventDispatcher :=
  if d.nextCommand = Command.SPACE then
    let d := { d with nextCommand := Command.NONE,
                      inputBuffer := d.inputBuffer ++ " " }
    if text = " " then d
    else { d with inputBuffer := d.inputBuffer ++ text }
  else if d.nextCommand = Command.BACKSPACE then
    if d.inputBuffer = "" then d
    else
      let d := { d with nextCommand := Command.NONE,
                        inputBuffer := d.inputBuffer.dropRight 1 }
      { d with inputBuffer := d.inputBuffer ++ text }
  else
    { d with inputBuffer := d.inputBuffer ++ text }

/-- Embeds `reset()` (part_003): clear the per-frame flags, consume the pending
focus claim when it matched the focus, perform the deferred focus clear,
drop the command and the input buffer.  The `SDL_assert(elementStack.empty())`
at its head is modelled by `resetAssertOK` below. -/
def reset (d : EventDispatcher) : EventDispatcher :=
  { d with
    hadHover := false
    pointerPressed := 0
    pointerReleased := 0
    idNextFocus := if d.idNextFocus = d.idFocus then "" else d.idNextFocus
    idFocus := if d.idLosingFocus = d.idFocus then "" else d.idFocus
    idLosingFocus := if d.idLosingFocus = d.idFocus then d.idLosingFocus else ""
    nextCommand := Command.NONE
    inputBuffer := "" }

/-- The assertion guarding `reset`: the element stack must be empty. -/
def resetAssertOK (d : EventDispatcher) : Prop :=
  d.elementStack = []

/-- Embeds `tryFocus(qualifiedId)`: reject when another id already claimed the
next focus this frame; otherwise record the claim (and the focus loss). -/
def tryFocus (d : EventDispatcher) (qualifiedId : String) :
    Bool × EventDispatcher :=
  if d.idNextFocus ≠ "" ∧ d.idNextFocus ≠ d.idFocus then
    (false, d)
  else
    let d := { d with idNextFocus := qualifiedId }
    let d := if d.idFocus ≠ "" then { d with idLosingFocus := d.idFocus } else d
    (true, d)

/-- Embeds `isActive(id)`. -/
def isActive (d : EventDispatcher) (id : String) : Bool :=
  decide (d.idFocus = id)

/-- Embeds `wantsKeyboard()`. -/
def wantsKeyboard (d : EventDispatcher) : Bool :=
  decide (d.idFocus ≠ "")

/-- Embeds `checkActionCommand(event)`: resolution tail shared by every tier. -/
def checkActionCommand (d : EventDispatcher) (event : Event) :
    StatusFlags × Event × EventDispatcher :=
  if event ≠ Event.NONE then
    (StatusFlags.NONE, event, { d with idGrabbed := "" })
  else
    match d.nextCommand with
    | Command.NONE => (StatusFlags.NONE, event, d)
    | Command.ACTION => (StatusFlags.NONE, Event.ACTION, { d with idGrabbed := "" })
    | Command.ENTER => (StatusFlags.NONE, Event.ACTION, { d with idGrabbed := "" })
    | Command.SPACE => (StatusFlags.NONE, Event.ACTION, { d with idGrabbed := "" })
    | _ => (StatusFlags.NONE, event, { d with idGrabbed := "" })

/-- Embeds `checkInputCommand(event)`: pending-command resolution at the full
input tier (text boxes). -/
def checkInputCommand (d : EventDispatcher) (event : Event) :
    StatusFlags × Event × EventDispatcher :=
  match d.nextCommand with
  | Command.ENTER =>
    if d.inputBuffer = "" then checkActionCommand d Event.END_LINE
    else (StatusFlags.NONE, Event.NONE, d)
  | Command.SPACE =>
    if d.inputBuffer = "" then checkActionCommand d Event.SPACE
    else checkActionCommand
      { d with inputBuffer := d.inputBuffer ++ " " } Event.INPUT
  | Command.BACKSPACE =>
    if d.inputBuffer = "" then checkActionCommand d Event.BACKSPACE
    else checkActionCommand
      { d with inputBuffer := d.inputBuffer.dropRight 1 } Event.INPUT
  | Command.ESCAPE => checkActionCommand d Event.CANCEL
  | _ =>
    if d.inputBuffer = "" then checkActionCommand d event
    else checkActionCommand d Event.INPUT

/-- Embeds `checkFocusCommand(req, event)`. -/
def checkFocusCommand (d : EventDispatcher) (req : RequestEvent)
    (event : Event) : StatusFlags × Event × EventDispatcher :=
  if req = RequestEvent.FOCUS then checkActionCommand d event
  else checkInputCommand d event

/-- Embeds `checkFocus(req, event)`. -/
def checkFocus (d : EventDispatcher) (req : RequestEvent) (event : Event) :
    StatusFlags × Event × EventDispatcher :=
  if d.idFocus = d.idCurrent then
    if d.idLosingFocus = d.idCurrent then
      (StatusFlags.FOCUSED, event, d)
    else
      let d := { d with idNextFocus := d.idCurrent }
      let r := checkFocusCommand d req event
      (StatusFlags.union StatusFlags.FOCUSED r.1, r.2.1, r.2.2)
  else if d.idLosingFocus = d.idCurrent then
    (StatusFlags.NONE, Event.FOCUS_LOST, d)
  else if d.idNextFocus = d.idCurrent then
    (StatusFlags.FOCUSED, Event.FOCUS_GAINED, { d with idFocus := d.idCurrent })
  else
    (StatusFlags.NONE, event, d)

/-- Embeds `status.test(Status::FOCUSED)` on the stack top (`false` when empty). -/
def backFocused (d : EventDispatcher) : Bool :=
  match d.elementStack with
  | [] => false
  | e :: _ => e.status.focused

/-- The stack top's event (`Event.NONE` when the stack is empty; only read
by `gainFocus` behind a non-emptiness test). -/
def backEvent (d : EventDispatcher) : Event :=
  match d.elementStack with
  | [] => Event.NONE
  | e :: _ => e.event

/-- Embeds `gainFocus(req, event)`. -/
def gainFocus (d : EventDispatcher) (req : RequestEvent) (event : Event) :
    StatusFlags × Event × EventDispatcher :=
  if d.idFocus = d.idCurrent ∨ d.idNextFocus = d.idCurrent then
    checkFocus d req event
  else if d.idNextFocus ≠ "" ∧
      (d.elementStack = [] ∨ backFocused d = false) then
    (StatusFlags.NONE, event, d)
  else if d.idNextFocus ≠ "" ∧
      (backEvent d ≠ Event.NONE ∧ backEvent d ≠ Event.FOCUS_GAINED) then
    (StatusFlags.NONE, event,
      { d with idNextFocus := d.idCurrent, idLosingFocus := d.idFocus })
  else
    let d1 := { d with idNextFocus := d.idCurrent }
    if event ≠ Event.NONE ∨ d.idLosingFocus ≠ "" ∨
        (d.idFocus ≠ "" ∧ d.idFocus = d.idGrabbed) then
      (StatusFlags.NONE, event, d1)
    else
      (StatusFlags.FOCUSED, Event.FOCUS_GAINED,
        { d1 with idLosingFocus := d.idFocus, idFocus := d.idCurrent })

/-- Embeds `loseFocus(req, event)`. -/
def loseFocus (d : EventDispatcher) (req : RequestEvent) (event : Event) :
    StatusFlags × Event × EventDispatcher :=
  if d.idFocus ≠ d.idCurrent then
    checkFocus d req event
  else if event = Event.NONE then
    (StatusFlags.NONE, Event.FOCUS_LOST, { d with idFocus := "" })
  else
    checkFocus { d with idLosingFocus := d.idCurrent } req event

/-- Embeds `checkGrabCommand(req, event)`. -/
def checkGrabCommand (d : EventDispatcher) (req : RequestEvent)
    (event : Event) : StatusFlags × Event × EventDispatcher :=
  let event := if d.nextCommand = Command.ESCAPE then Event.CANCEL else event
  if req = RequestEvent.GRAB then checkActionCommand d event
  else checkFocus d req event

/-- Embeds `checkGrabOver(req, event)`: grab resolution when hover passed. -/
def checkGrabOver (d : EventDispatcher) (req : RequestEvent) (event : Event) :
    StatusFlags × Event × EventDispatcher :=
  if d.pointerReleased ≠ 0 then
    if d.idGrabbed = d.idCurrent then
      checkFocus { d with idGrabbed := "" } req Event.ACTION
    else
      checkFocus d req event
  else if d.pointerPressed ≠ 1 then
    if d.idGrabbed ≠ d.idCurrent then
      if req = RequestEvent.GRAB then (StatusFlags.NONE, event, d)
      else gainFocus d req event
    else if d.pointerPressed = 0 then
      let r := checkGrabCommand d req event
      (StatusFlags.union StatusFlags.GRABBED r.1, r.2.1, r.2.2)
    else
      checkFocus { d with idGrabbed := "" } req Event.CANCEL
  else
    let d := { d with idGrabbed := d.idCurrent }
    if req = RequestEvent.GRAB then
      (StatusFlags.GRABBED, Event.GRAB, d)
    else
      let r := gainFocus d req Event.GRAB
      (StatusFlags.union StatusFlags.GRABBED r.1, r.2.1, r.2.2)

/-- Embeds `checkGrabOut(req, event)`: grab resolution when hover failed. -/
def checkGrabOut (d : EventDispatcher) (req : RequestEvent) (event : Event) :
    StatusFlags × Event × EventDispatcher :=
  if d.idGrabbed ≠ d.idCurrent then
    if d.pointerPressed = 0 then checkFocus d req event
    else loseFocus d req event
  else if d.pointerReleased = 0 ∧ d.pointerPressed = 0 then
    let r := checkFocus d req event
    (StatusFlags.union StatusFlags.GRABBED r.1, r.2.1, r.2.2)
  else
    let d := { d with idGrabbed := "" }
    if req = RequestEvent.GRAB ∨ d.idFocus ≠ d.idCurrent then
      (StatusFlags.NONE, Event.CANCEL, d)
    else if d.pointerPressed ≠ 0 then
      loseFocus d req Event.CANCEL
    else
      checkFocus d req Event.CANCEL

/-- Embeds `status.test(Status::HOVERED)` on the stack top (`false` when empty). -/
def backHovered (d : EventDispatcher) : Bool :=
  match d.elementStack with
  | [] => false
  | e :: _ => e.status.hovered

/-- Embeds `checkHover(req, rect, event)`. -/
def checkHover (d : EventDispatcher) (req : RequestEvent) (rect : Rect)
    (event : Event) : StatusFlags × Event × EventDispatcher :=
  if d.hadHover = true ∨ ¬(d.elementStack = [] ∨ backHovered d = true) ∨
      SDL_PointInRect d.pointerPos rect = false then
    if req = RequestEvent.HOVER then (StatusFlags.NONE, event, d)
    else checkGrabOut d req event
  else if req = RequestEvent.HOVER then
    (StatusFlags.HOVERED, event, d)
  else
    let r := checkGrabOver d req event
    (StatusFlags.union StatusFlags.HOVERED r.1, r.2.1, r.2.2)

/-- The qualified id `check` installs in `idCurrent`: the local id when the
stack is empty, otherwise the accumulator extended by the separator. -/
def qualifiedId (d : EventDispatcher) (id : String) : String :=
  if d.elementStack = [] then id
  else (d.idCurrent.push groupNameSeparator) ++ id

/-- Embeds `check(req, rect, id)` (part_003): build the qualified id, resolve the
status/event pipeline (unless the request is `NONE`), push the entry.  The
pushed rectangle is the argument rectangle. -/
def check (d : EventDispatcher) (req : RequestEvent) (rect : Rect)
    (id : String) : EventDispatcher :=
  let d := { d with idCurrent := qualifiedId d id }
  if req = RequestEvent.NONE then
    { d with elementStack :=
        ⟨id.length, rect, StatusFlags.NONE, Event.NONE⟩ :: d.elementStack }
  else
    let r := checkHover d req rect Event.NONE
    { r.2.2 with elementStack :=
        ⟨id.length, rect, r.1, r.2.1⟩ :: r.2.2.elementStack }

/-- Embeds `popTarget()` (part_003): pop the top entry, latch `hadHover`,
truncate the id accumulator, and fold a popped `GRABBED`/`FOCUSED` into
the new top. -/
def popTarget (d : EventDispatcher) : EventDispatcher :=
  match d.elementStack with
  | [] => d
  | element :: rest =>
    let d := { d with
      elementStack := rest
      hadHover := d.hadHover || element.status.hovered }
    match rest with
    | [] => { d with idCurrent := "" }
    | superElement :: rest2 =>
      let d := { d with
        idCurrent := d.idCurrent.dropRight (element.idLength + 1) }
      if element.status.grabbed = false ∧ element.status.focused = false then
        d
      else
        let superElement :=
          if element.status.grabbed then
            { superElement with
              status := superElement.status.without StatusFlags.GRABBED
              event := if superElement.event = Event.GRAB then Event.NONE
                       else superElement.event }
          else superElement
        let superElement :=
          if element.status.focused then
            { superElement with
              status := superElement.status.without StatusFlags.FOCUSED
              event := if superElement.event = Event.FOCUS_GAINED then Event.NONE
                       else Event.FOCUS_LOST }
          else superElement
        { d with elementStack := superElement :: rest2 }

/-- Number of open stack entries carrying the `GRABBED` flag. -/
def grabbedCount (d : EventDispatcher) : Nat :=
  (d.elementStack.filter (fun e => e.status.grabbed)).length

end EventDispatcher

/-- Embeds `EventTarget::discard()` (part_003): drop `HOVERED` unless the entry is
grabbed; a grabbed entry is only discarded while its event is still the
fresh `GRAB`. -/
def EventTarget.discard (s : EventTargetState) : EventTargetState :=
  if s.status.grabbed = false then
    { s with status := s.status.without StatusFlags.HOVERED }
  else if s.event = Event.GRAB then
    { s with
      status := s.status.without
        (StatusFlags.union StatusFlags.HOVERED StatusFlags.GRABBED)
      event := Event.NONE }
  else s

/-- Embeds `EventTarget::shrink(w, h)` (part_003): write the new size into the
entry's rectangle, then discard the interaction status iff the pointer's
*vertical* offset falls at or beyond the new height. -/
def EventTarget.shrink (pointerPos : Pt) (s : EventTargetState)
    (w h : Int) : EventTargetState :=
  let s := { s with rect := { s.rect with w := w, h := h } }
  if h ≤ pointerPos.y - s.rect.y then EventTarget.discard s else s

end BotoUI

namespace Legacy

open BotoUI

/-- Request tiers of the legacy dispatcher
(`src/include/boto-ui/core/EventDispatcher.hpp`). -/
inductive RequestEvent where
  | NONE
  | HOVER
  | ACTION
  | FOCUS
deriving Repr, DecidableEq

/-- Legacy `EventTargetState`: rect, status, event (no id segment length). -/
structure EventTargetState where
  rect : Rect
  status : StatusFlags
  event : Event
deriving Repr, DecidableEq

/-- The legacy `EventDispatcher`'s fields.  The element stack is a list
whose head is `back()`. -/
structure EventDispatcher where
  pointerPos : Pt
  pointerPressed : Nat
  pointerReleased : Nat
  hadHover : Bool
  idGrabbed : String
  idFocus : String
  idNextFocus : String
  elementStack : List EventTargetState
deriving Repr, DecidableEq

namespace EventDispatcher

/-- Legacy `checkFocus(req, id, event)`. -/
def checkFocus (d : EventDispatcher) (id : String) (event : Event) :
    StatusFlags × Event × EventDispatcher :=
  if d.idFocus = id then
    (StatusFlags.FOCUSED, event, d)
  else if d.idNextFocus = id then
    (StatusFlags.FOCUSED, Event.FOCUS_GAINED, { d with idFocus := id })
  else
    (StatusFlags.NONE, event, d)

/-- Legacy `gainFocus(req, id, event)`. -/
def gainFocus (d : EventDispatcher) (id : String) (event : Event) :
    StatusFlags × Event × EventDispatcher :=
  if d.idFocus = id ∨ d.idNextFocus = id then
    checkFocus d id event
  else if d.idNextFocus = "" then
    (StatusFlags.NONE, event, { d with idNextFocus := id })
  else
    (StatusFlags.NONE, event, d)

/-- Legacy `checkGrabOut(req, id, event)`. -/
def checkGrabOut (d : EventDispatcher) (id : String) (event : Event) :
    StatusFlags × Event × EventDispatcher :=
  if d.idGrabbed ≠ id then
    checkFocus d id event
  else if d.pointerReleased = 0 ∧ d.pointerPressed = 0 then
    let r := checkFocus d id event
    (StatusFlags.union StatusFlags.GRABBED r.1, r.2.1, r.2.2)
  else
    let d := { d with idGrabbed := "" }
    if d.idFocus = id then (StatusFlags.FOCUSED, Event.CANCEL, d)
    else (StatusFlags.NONE, Event.CANCEL, d)

/-- Legacy `checkGrabOver(req, id, event)`. -/
def checkGrabOver (d : EventDispatcher) (req : RequestEvent) (id : String)
    (event : Event) : StatusFlags × Event × EventDispatcher :=
  if d.pointerReleased ≠ 0 then
    if d.idGrabbed = id then
      checkFocus { d with idGrabbed := "" } id Event.ACTION
    else
      checkFocus d id event
  else if d.pointerPressed ≠ 1 then
    if d.idGrabbed ≠ id then
      if req = RequestEvent.ACTION then (StatusFlags.NONE, event, d)
      else gainFocus d id event
    else if d.pointerPressed = 0 then
      let r := checkFocus d id event
      (StatusFlags.union StatusFlags.GRABBED r.1, r.2.1, r.2.2)
    else
      checkFocus { d with idGrabbed := "" } id Event.CANCEL
  else
    let d := { d with idGrabbed := id }
    if req = RequestEvent.ACTION then
      (StatusFlags.GRABBED, Event.GRAB, d)
    else
      let r := gainFocus d id Event.GRAB
      (StatusFlags.union StatusFlags.GRABBED r.1, r.2.1, r.2.2)

/-- Legacy `checkHover(req, rect, id, event)`. -/
def checkHover (d : EventDispatcher) (req : RequestEvent) (rect : Rect)
    (id : String) (event : Event) : StatusFlags × Event × EventDispatcher :=
  if d.hadHover = true ∨ SDL_PointInRect d.pointerPos rect = false then
    if req = RequestEvent.HOVER then (StatusFlags.NONE, event, d)
    else checkGrabOut d id event
  else if req = RequestEvent.HOVER then
    (StatusFlags.HOVERED, event, d)
  else
    let r := checkGrabOver d req id event
    (StatusFlags.union StatusFlags.HOVERED r.1, r.2.1, r.2.2)

/-- Legacy `check(req, rect, id)`: clip the rectangle against the current
stack top (when any), resolve the status, push `{rect, status, event}`. -/
def check (d : EventDispatcher) (req : RequestEvent) (rect : Rect)
    (id : String) : EventDispatcher :=
  let rect :=
    match d.elementStack with
    | [] => rect
    | parent :: _ => SDL_IntersectRectB parent.rect rect
  if req = RequestEvent.NONE then
    { d with elementStack :=
        ⟨rect, StatusFlags.NONE, Event.NONE⟩ :: d.elementStack }
  else
    let r := checkHover d req rect id Event.NONE
    { r.2.2 with elementStack :=
        ⟨rect, r.1, r.2.1⟩ :: r.2.2.elementStack }

end EventDispatcher

end Legacy

namespace Dui

open BotoUI

/-- The dui layout policies (`Layout` in the Target generation). -/
inductive Layout where
  | NONE
  | VERTICAL
  | HORIZONTAL
deriving Repr, DecidableEq

/-- Embeds `makeLen(len, delta, autoPos, elementSpacing)` from `core/Target.hpp`
(`src/unnamed/part_001`): substitute the content extent for an auto (zero)
dimension, removing one trailing element spacing when the layout stacks
along this axis and the extent is large enough. -/
def makeLen (len delta : Int) (autoPos : Bool) (elementSpacing : Int) : Int :=
  if len = 0 then
    if autoPos = true ∧ elementSpacing ≤ delta then delta - elementSpacing
    else delta
  else len

/-- The per-level state a `Target` handle points at: requested rectangle,
content top-left, running bottom-right extent, layout policy and element
spacing (the style). -/
structure TargetState where
  rect : Rect
  topLeft : Pt
  bottomRight : Pt
  layout : Layout
  elementSpacing : Int
deriving Repr, DecidableEq

namespace TargetState

/-- Embeds `Target::advance(p)`: grow the running extent; only the axis matching
the layout policy accumulates (plus spacing), the other is maxed. -/
def advance (t : TargetState) (p : Pt) : TargetState :=
  match t.layout with
  | Layout.VERTICAL =>
    { t with bottomRight :=
        ⟨max (p.x + t.topLeft.x) t.bottomRight.x,
         t.bottomRight.y + p.y + t.elementSpacing⟩ }
  | Layout.HORIZONTAL =>
    { t with bottomRight :=
        ⟨t.bottomRight.x + p.x + t.elementSpacing,
         max (p.y + t.topLeft.y) t.bottomRight.y⟩ }
  | Layout.NONE =>
    { t with bottomRight :=
        ⟨max (p.x + t.topLeft.x) t.bottomRight.x,
         max (p.y + t.topLeft.y) t.bottomRight.y⟩ }

/-- Embeds `Target::width()`. -/
def width (t : TargetState) : Int :=
  makeLen t.rect.w (t.bottomRight.x - t.topLeft.x)
    (decide (t.layout = Layout.HORIZONTAL)) t.elementSpacing

/-- Embeds `Target::height()`. -/
def height (t : TargetState) : Int :=
  makeLen t.rect.h (t.bottomRight.y - t.topLeft.y)
    (decide (t.layout = Layout.VERTICAL)) t.elementSpacing

end TargetState

end Dui

open BotoUI

/-- A dispatcher state at a fresh frame boundary (pointer at (5,5), no
buttons, no ids, empty stack); concrete scenarios below start from it. -/
def baseED : EventDispatcher :=
  { pointerPos := ⟨5, 5⟩
    pointerPressed := 0
    pointerReleased := 0
    idCurrent := ""
    hadHover := false
    idGrabbed := ""
    idFocus := ""
    idNextFocus := ""
    idLosingFocus := ""
    nextCommand := Command.NONE
    inputBuffer := ""
    elementStack := [] }

/-- C4: for a focused full-input element, `checkInputCommand` resolves the
pending command as: ENTER gives `END_LINE` iff the buffer is empty and is
swallowed (`NONE`) otherwise; SPACE with a non-empty buffer appends a space
and gives `INPUT`, with an empty buffer it passes through as the literal
`SPACE` event; BACKSPACE with a non-empty buffer pops one byte and gives
`INPUT`, with an empty buffer it passes through as the literal `BACKSPACE`
event; ESCAPE always gives `CANCEL`; with no pending command a non-empty
buffer gives `INPUT`. -/
theorem c4_input_command_resolution (d : EventDispatcher) :
    (EventDispatcher.checkInputCommand d Event.NONE).2.1 =
      (match d.nextCommand with
        | Command.ENTER =>
          if d.inputBuffer = "" then Event.END_LINE else Event.NONE
        | Command.SPACE =>
          if d.inputBuffer = "" then Event.SPACE else Event.INPUT
        | Command.BACKSPACE =>
          if d.inputBuffer = "" then Event.BACKSPACE else Event.INPUT
        | Command.ESCAPE => Event.CANCEL
        | Command.ACTION =>
          if d.inputBuffer = "" then Event.ACTION else Event.INPUT
        | Command.NONE =>
          if d.inputBuffer = "" then Event.NONE else Event.INPUT) ∧
    (EventDispatcher.checkInputCommand d Event.NONE).2.2.inputBuffer =
      (match d.nextCommand with
        | Command.SPACE =>
          if d.inputBuffer = "" then d.inputBuffer else d.inputBuffer ++ " "
        | Command.BACKSPACE =>
          if d.inputBuffer = "" then d.inputBuffer
          else d.inputBuffer.dropRight 1
        | _ => d.inputBuffer) := by
  cases hc : d.nextCommand <;>
    by_cases hb : d.inputBuffer = "" <;>
      simp [EventDispatcher.checkInputCommand, EventDispatcher.checkActionCommand,
        hc, hb]

/-- C6: `releasePointer` (part_003) ORs bit `b` into the released mask,
keeps every previously released bit, and leaves the pressed mask alone. -/
theorem c6_release_pointer_or (d : EventDispatcher) (b : Nat) (_hb : b < 32) :
    (d.releasePointer b).pointerReleased = d.pointerReleased ||| (1 <<< b) ∧
    (d.releasePointer b).pointerReleased.testBit b = true ∧
    (∀ i : Nat, d.pointerReleased.testBit i = true →
      (d.releasePointer b).pointerReleased.testBit i = true) ∧
    (d.releasePointer b).pointerPressed = d.pointerPressed := by
  refine ⟨rfl, ?_, ?_, rfl⟩
  · simp [EventDispatcher.releasePointer, Nat.testBit_or, Nat.shiftLeft_eq,
      Nat.testBit_two_pow_self]
  · intro i hi
    simp [EventDispatcher.releasePointer, Nat.testBit_or, hi]

/-- C6 witness: releasing button 2 with button 0 already released keeps
bit 0 and sets bit 2. -/
theorem c6_release_pointer_or_witness :
    ({ baseED with pointerReleased := 1 }.releasePointer 2).pointerReleased =
        (1 : Nat) ||| (1 <<< 2) ∧
    ({ baseED with pointerReleased := 1 }.releasePointer 2).pointerReleased.testBit 2
        = true ∧
    ({ baseED with pointerReleased := 1 }.releasePointer 2).pointerReleased.testBit 0
        = true ∧
    ({ baseED with pointerReleased := 1 }.releasePointer 2).pointerPressed = 0 := by
  obtain ⟨h1, h2, h3, h4⟩ :=
    c6_release_pointer_or { baseED with pointerReleased := 1 } 2 (by decide)
  exact ⟨h1, h2, h3 0 (by decide), h4⟩

/-- C9: `input(text)` with a pending BACKSPACE command and an empty buffer
returns immediately: the buffer stays empty, the command stays BACKSPACE,
and the incoming text is discarded (the whole state is unchanged). -/
theorem c9_input_discarded_on_pending_backspace (d : EventDispatcher)
    (text : String) (hc : d.nextCommand = Command.BACKSPACE)
    (hb : d.inputBuffer = "") :
    (d.input text).inputBuffer = "" ∧
    (d.input text).nextCommand = Command.BACKSPACE ∧
    d.input text = d := by
  have hd : d.input text = d := by
    simp [EventDispatcher.input, hc, hb]
  exact ⟨by rw [hd, hb], by rw [hd, hc], hd⟩

/-- C9 witness: concrete pending-BACKSPACE empty-buffer call. -/
theorem c9_input_discarded_on_pending_backspace_witness :
    ({ baseED with nextCommand := Command.BACKSPACE }.input "hello").inputBuffer
        = "" ∧
    ({ baseED with nextCommand := Command.BACKSPACE }.input "hello").nextCommand
        = Command.BACKSPACE ∧
    { baseED with nextCommand := Command.BACKSPACE }.input "hello" =
      { baseED with nextCommand := Command.BACKSPACE } :=
  c9_input_discarded_on_pending_backspace
    { baseED with nextCommand := Command.BACKSPACE } "hello" rfl rfl

/-- C10: `EventTarget::shrink(w, h)` writes the new width and height into
the stored rectangle but decides the discard only from the vertical
coordinate: the status is discarded iff `pointerPos.y - rect.y >= h`, so a
pointer at or beyond the new width but within the new height leaves the
status (HOVERED, GRABBED) untouched. -/
theorem c10_shrink_discards_on_vertical_only (pos : Pt) (s : EventTargetState)
    (w h : Int) :
    (EventTarget.shrink pos s w h).rect = { s.rect with w := w, h := h } ∧
    (pos.y - s.rect.y < h →
      (EventTarget.shrink pos s w h).status = s.status ∧
      (EventTarget.shrink pos s w h).event = s.event) ∧
    (h ≤ pos.y - s.rect.y →
      EventTarget.shrink pos s w h =
        EventTarget.discard { s with rect := { s.rect with w := w, h := h } }) ∧
    (w ≤ pos.x - s.rect.x → pos.y - s.rect.y < h →
      (EventTarget.shrink pos s w h).status = s.status) := by
  refine ⟨?_, ?_, ?_, ?_⟩
  · simp only [EventTarget.shrink]
    split
    · simp only [EventTarget.discard]
      split_ifs <;> rfl
    · rfl
  · intro hy
    simp only [EventTarget.shrink]
    split
    · omega
    · exact ⟨rfl, rfl⟩
  · intro hy
    simp only [EventTarget.shrink]
    split
    · rfl
    · omega
  · intro _ hy
    simp only [EventTarget.shrink]
    split
    · omega
    · rfl

/-- C10 witness: pointer at x-offset 9 (beyond the new width 5) but
y-offset 2 (within the new height 8) keeps a hovered status. -/
theorem c10_shrink_discards_on_vertical_only_witness :
    (EventTarget.shrink ⟨9, 2⟩
        ⟨3, ⟨0, 0, 10, 10⟩, StatusFlags.HOVERED, Event.NONE⟩ 5 8).status =
      StatusFlags.HOVERED ∧
    (EventTarget.shrink ⟨9, 2⟩
        ⟨3, ⟨0, 0, 10, 10⟩, StatusFlags.HOVERED, Event.NONE⟩ 5 8).rect =
      ⟨0, 0, 5, 8⟩ := by
  obtain ⟨h1, -, -, h4⟩ :=
    c10_shrink_discards_on_vertical_only ⟨9, 2⟩
      ⟨3, ⟨0, 0, 10, 10⟩, StatusFlags.HOVERED, Event.NONE⟩ 5 8
  exact ⟨h4 (by decide) (by decide), h1⟩

/-- C8 counterexample: the claim's unconditional "minus one trailing
elementSpacing" fails when the accumulated extent is smaller than the
spacing: an empty auto-sized vertical level (extent 0, spacing 4) resolves
to height 0, not 0 - 4. -/
theorem c8_counterexample :
    Dui.TargetState.height
        ⟨⟨0, 0, 0, 0⟩, ⟨0, 0⟩, ⟨0, 0⟩, Dui.Layout.VERTICAL, 4⟩ = 0 ∧
    (0 : Int) ≠ 0 - 4 := by
  decide

/-- C8 (amended): the effective width/height query returns a non-zero
requested dimension unchanged; for a zero (auto) dimension it returns the
accumulated content extent, minus one trailing elementSpacing only when
the level's layout stacks along that axis *and* the extent is at least
elementSpacing; and in the spec's scenario (vertical stack, spacing 4,
children advancing (20,10) and (15,10)) the resolved auto height is 24 and
the auto width is 20. -/
theorem c8_auto_size_resolution :
    (∀ t : Dui.TargetState, t.rect.h ≠ 0 → t.height = t.rect.h) ∧
    (∀ t : Dui.TargetState, t.rect.w ≠ 0 → t.width = t.rect.w) ∧
    (∀ t : Dui.TargetState, t.rect.h = 0 → t.layout = Dui.Layout.VERTICAL →
      t.elementSpacing ≤ t.bottomRight.y - t.topLeft.y →
      t.height = t.bottomRight.y - t.topLeft.y - t.elementSpacing) ∧
    (∀ t : Dui.TargetState, t.rect.h = 0 →
      t.layout ≠ Dui.Layout.VERTICAL ∨
        t.bottomRight.y - t.topLeft.y < t.elementSpacing →
      t.height = t.bottomRight.y - t.topLeft.y) ∧
    (∀ t : Dui.TargetState, t.rect.w = 0 → t.layout = Dui.Layout.HORIZONTAL →
      t.elementSpacing ≤ t.bottomRight.x - t.topLeft.x →
      t.width = t.bottomRight.x - t.topLeft.x - t.elementSpacing) ∧
    (∀ t : Dui.TargetState, t.rect.w = 0 →
      t.layout ≠ Dui.Layout.HORIZONTAL ∨
        t.bottomRight.x - t.topLeft.x < t.elementSpacing →
      t.width = t.bottomRight.x - t.topLeft.x) ∧
    (((⟨⟨0, 0, 0, 0⟩, ⟨0, 0⟩, ⟨0, 0⟩, Dui.Layout.VERTICAL, 4⟩ :
        Dui.TargetState).advance ⟨20, 10⟩).advance ⟨15, 10⟩).height = 24 ∧
    (((⟨⟨0, 0, 0, 0⟩, ⟨0, 0⟩, ⟨0, 0⟩, Dui.Layout.VERTICAL, 4⟩ :
        Dui.TargetState).advance ⟨20, 10⟩).advance ⟨15, 10⟩).width = 20 := by
  refine ⟨?_, ?_, ?_, ?_, ?_, ?_, by decide, by decide⟩
  · intro t ht
    simp [Dui.TargetState.height, Dui.makeLen, ht]
  · intro t ht
    simp [Dui.TargetState.width, Dui.makeLen, ht]
  · intro t ht hl hs
    simp [Dui.TargetState.height, Dui.makeLen, ht, hl, hs]
  · intro t ht hl
    rcases hl with hl | hl <;>
      simp [Dui.TargetState.height, Dui.makeLen, ht, hl]
  · intro t ht hl hs
    simp [Dui.TargetState.width, Dui.makeLen, ht, hl, hs]
  · intro t ht hl
    rcases hl with hl | hl <;>
      simp [Dui.TargetState.width, Dui.makeLen, ht, hl]

/-- C8 witness: the fixed-dimension and large-extent branches at concrete
levels. -/
theorem c8_auto_size_resolution_witness :
    Dui.TargetState.height
        ⟨⟨0, 0, 0, 7⟩, ⟨0, 0⟩, ⟨0, 0⟩, Dui.Layout.VERTICAL, 4⟩ = 7 ∧
    Dui.TargetState.height
        ⟨⟨0, 0, 0, 0⟩, ⟨0, 0⟩, ⟨0, 28⟩, Dui.Layout.VERTICAL, 4⟩ = 24 := by
  obtain ⟨h1, -, h3, -⟩ := c8_auto_size_resolution
  exact ⟨h1 _ (by decide), h3 _ rfl rfl (by decide)⟩

/-- C7 counterexample: with a focus handoff in flight at the boundary
(`idLosingFocus = idFocus = "a"`, pending claim "b"), the first `reset`
keeps the stale losing-focus id while clearing the focus, and the second
`reset` then clears the stale id: the two post-states differ. -/
theorem c7_counterexample :
    EventDispatcher.reset (EventDispatcher.reset
      { baseED with idFocus := "a", idLosingFocus := "a",
                    idNextFocus := "b" }) ≠
    EventDispatcher.reset
      { baseED with idFocus := "a", idLosingFocus := "a",
                    idNextFocus := "b" } := by
  decide

/-- C7 (amended): `reset` is idempotent — the second of two back-to-back
calls changes no field and its stack-empty assertion still holds —
provided no deferred focus clear is in flight at the boundary (no id is
simultaneously the focused id and the losing-focus id; when one is, the
second call additionally clears the stale losing-focus id). -/
theorem c7_reset_idempotent (d : EventDispatcher)
    (h : d.idFocus = "" ∨ d.idLosingFocus ≠ d.idFocus) :
    EventDispatcher.reset (EventDispatcher.reset d) =
      EventDispatcher.reset d ∧
    (EventDispatcher.reset d).elementStack = d.elementStack ∧
    (EventDispatcher.resetAssertOK d →
      EventDispatcher.resetAssertOK (EventDispatcher.reset d)) := by
  refine ⟨?_, rfl, fun ha => ha⟩
  obtain ⟨pos, pp, pr, cur, hh, g, f, n, l, cmd, buf, st⟩ := d
  simp only [EventDispatcher.reset, EventDispatcher.mk.injEq] at h ⊢
  split_ifs <;> simp_all

/-- C7 witness: a clean boundary state (focused "a", nothing losing
focus): the second reset is a no-op. -/
theorem c7_reset_idempotent_witness :
    EventDispatcher.reset (EventDispatcher.reset
        { baseED with idFocus := "a" }) =
      EventDispatcher.reset { baseED with idFocus := "a" } ∧
    (EventDispatcher.reset { baseED with idFocus := "a" }).elementStack =
      ({ baseED with idFocus := "a" } : EventDispatcher).elementStack ∧
    (EventDispatcher.resetAssertOK { baseED with idFocus := "a" } →
      EventDispatcher.resetAssertOK
        (EventDispatcher.reset { baseED with idFocus := "a" })) :=
  c7_reset_idempotent { baseED with idFocus := "a" } (Or.inr (by decide))

/-- C2 counterexample: after a prefix of two nested `check` calls (parent
and child both at GRAB tier, primary button newly pressed, pointer inside
both rectangles), two open stack entries simultaneously carry the GRABBED
flag, refuting "at most one entry has GRABBED at every instant". -/
theorem c2_counterexample :
    EventDispatcher.grabbedCount
      (EventDispatcher.check
        (EventDispatcher.check
          { baseED with pointerPressed := 1, pointerPos := ⟨1, 1⟩ }
          RequestEvent.GRAB ⟨0, 0, 100, 100⟩ "p")
        RequestEvent.GRAB ⟨0, 0, 50, 50⟩ "c") = 2 := by
  decide

/-- C2 (amended): the grabbed-id and focused-id are single slots by
construction, but the per-entry GRABBED/FOCUSED flags may transiently
appear on several nested open entries; `popTarget` restores exclusivity
upward: after popping an entry that carried GRABBED (resp. FOCUSED), the
new top of stack no longer carries that flag. -/
theorem c2_pop_restores_exclusivity (d : EventDispatcher)
    (top next : EventTargetState) (rest : List EventTargetState)
    (h : d.elementStack = top :: next :: rest) :
    ∃ e, (EventDispatcher.popTarget d).elementStack = e :: rest ∧
      (top.status.grabbed = true → e.status.grabbed = false) ∧
      (top.status.focused = true → e.status.focused = false) := by
  by_cases hg : top.status.grabbed = true <;>
    by_cases hf : top.status.focused = true <;>
      simp only [EventDispatcher.popTarget, h, hg, hf] <;>
      simp [StatusFlags.without, StatusFlags.GRABBED, StatusFlags.FOCUSED, hg, hf]

/-- The legacy focus resolution never touches the element stack. -/
theorem legacy_checkFocus_stack (d : Legacy.EventDispatcher) (id : String)
    (ev : Event) :
    ((Legacy.EventDispatcher.checkFocus d id ev).2.2).elementStack =
      d.elementStack := by
  simp only [Legacy.EventDispatcher.checkFocus]
  split_ifs <;> rfl

/-- The legacy focus claim never touches the element stack. -/
theorem legacy_gainFocus_stack (d : Legacy.EventDispatcher) (id : String)
    (ev : Event) :
    ((Legacy.EventDispatcher.gainFocus d id ev).2.2).elementStack =
      d.elementStack := by
  simp only [Legacy.EventDispatcher.gainFocus]
  split_ifs <;> simp [legacy_checkFocus_stack]

/-- The legacy off-hover grab resolution never touches the element stack. -/
theorem legacy_checkGrabOut_stack (d : Legacy.EventDispatcher) (id : String)
    (ev : Event) :
    ((Legacy.EventDispatcher.checkGrabOut d id ev).2.2).elementStack =
      d.elementStack := by
  simp only [Legacy.EventDispatcher.checkGrabOut]
  split_ifs <;> simp [legacy_checkFocus_stack]

/-- The legacy on-hover grab resolution never touches the element stack. -/
theorem legacy_checkGrabOver_stack (d : Legacy.EventDispatcher)
    (req : Legacy.RequestEvent) (id : String) (ev : Event) :
    ((Legacy.EventDispatcher.checkGrabOver d req id ev).2.2).elementStack =
      d.elementStack := by
  simp only [Legacy.EventDispatcher.checkGrabOver]
  split_ifs <;> simp [legacy_checkFocus_stack, legacy_gainFocus_stack]

/-- The legacy hover resolution never touches the element stack. -/
theorem legacy_checkHover_stack (d : Legacy.EventDispatcher)
    (req : Legacy.RequestEvent) (rect : Rect) (id : String) (ev : Event) :
    ((Legacy.EventDispatcher.checkHover d req rect id ev).2.2).elementStack =
      d.elementStack := by
  simp only [Legacy.EventDispatcher.checkHover]
  split_ifs <;> simp [legacy_checkGrabOut_stack, legacy_checkGrabOver_stack]

/-- Point-set semantics of `SDL_IntersectRect` under the legacy call
pattern: a point lies in the stored result exactly when it lies in both
input rectangles (in the empty cases the result rectangle is empty, as is
the set intersection). -/
theorem mem_SDL_IntersectRectB (A B : Rect) (p : Pt) :
    SDL_PointInRect p (SDL_IntersectRectB A B) = true ↔
      SDL_PointInRect p A = true ∧ SDL_PointInRect p B = true := by
  simp only [SDL_IntersectRectB, SDL_RectEmpty, SDL_PointInRect]
  split_ifs with hEmpty <;>
    simp only [Bool.or_eq_true, Bool.and_eq_true, decide_eq_true_eq]
      at hEmpty ⊢ <;>
    omega

/-- C5 counterexample (current dispatcher, part_003): `check` stores the
argument rectangle unchanged, so with a parent entry of rect (0,0,10,10)
a child checking rect (20,20,5,5) is pushed with a rectangle that
contains the point (20,20), which the parent's rectangle does not:
the stored rectangle is not the intersection with the parent. -/
theorem c5_counterexample :
    (EventDispatcher.check
        { baseED with
          idCurrent := "p"
          elementStack :=
            [⟨1, ⟨0, 0, 10, 10⟩, StatusFlags.HOVERED, Event.NONE⟩] }
        RequestEvent.HOVER ⟨20, 20, 5, 5⟩ "c").elementStack.head? =
      some ⟨1, ⟨20, 20, 5, 5⟩, StatusFlags.NONE, Event.NONE⟩ ∧
    SDL_PointInRect ⟨20, 20⟩ ⟨20, 20, 5, 5⟩ = true ∧
    SDL_PointInRect ⟨20, 20⟩ ⟨0, 0, 10, 10⟩ = false :=
  ⟨rfl, rfl, rfl⟩

/-- C5 (amended): the clip-at-push invariant holds for the *legacy*
dispatcher (`src/include/boto-ui/core/EventDispatcher.hpp`): with a
non-empty stack its `check` pushes exactly the SDL intersection of the
argument rectangle with the parent entry's rectangle, which as a point
set equals the parent's rectangle intersected with the argument (hence is
contained in the parent's rectangle).  The current `check` (part_003)
stores the argument rectangle unclipped (see the counterexample). -/
theorem c5_clip_invariant_legacy (d : Legacy.EventDispatcher)
    (req : Legacy.RequestEvent) (rect : Rect) (id : String)
    (parent : Legacy.EventTargetState) (rest : List Legacy.EventTargetState)
    (h : d.elementStack = parent :: rest) :
    ∃ e rest2,
      (Legacy.EventDispatcher.check d req rect id).elementStack =
        e :: rest2 ∧
      e.rect = SDL_IntersectRectB parent.rect rect ∧
      (∀ p : Pt,
        SDL_PointInRect p e.rect = true ↔
          SDL_PointInRect p parent.rect = true ∧
          SDL_PointInRect p rect = true) := by
  simp only [Legacy.EventDispatcher.check, h]
  split_ifs with hreq
  · exact ⟨_, _, rfl, rfl, fun p => mem_SDL_IntersectRectB parent.rect rect p⟩
  · exact ⟨_, _, rfl, rfl, fun p => mem_SDL_IntersectRectB parent.rect rect p⟩

/-- C5 witness: a concrete legacy dispatcher with an open parent; the
child's stored rectangle is the intersection. -/
theorem c5_clip_invariant_legacy_witness :
    ∃ e rest2,
      (Legacy.EventDispatcher.check
          { pointerPos := ⟨5, 5⟩, pointerPressed := 0, pointerReleased := 0,
            hadHover := false, idGrabbed := "", idFocus := "",
            idNextFocus := "",
            elementStack :=
              [⟨⟨0, 0, 10, 10⟩, StatusFlags.HOVERED, Event.NONE⟩] }
          Legacy.RequestEvent.HOVER ⟨3, 3, 20, 20⟩ "c").elementStack =
        e :: rest2 ∧
      e.rect = SDL_IntersectRectB ⟨0, 0, 10, 10⟩ ⟨3, 3, 20, 20⟩ ∧
      (∀ p : Pt,
        SDL_PointInRect p e.rect = true ↔
          SDL_PointInRect p ⟨0, 0, 10, 10⟩ = true ∧
          SDL_PointInRect p ⟨3, 3, 20, 20⟩ = true) :=
  c5_clip_invariant_legacy _ Legacy.RequestEvent.HOVER ⟨3, 3, 20, 20⟩ "c"
    ⟨⟨0, 0, 10, 10⟩, StatusFlags.HOVERED, Event.NONE⟩ [] rfl

/-- C3 counterexample: when the first claimant is the currently focused
element itself ("a" focused, "a" claims, then "b" claims), *both*
`tryFocus` calls return true — the guard lets a claim equal to the focus
through, so the second, distinct claimant overwrites it and succeeds,
refuting "the second call returns false". -/
theorem c3_counterexample :
    (EventDispatcher.tryFocus { baseED with idFocus := "a" } "a").1 = true ∧
    (EventDispatcher.tryFocus
        (EventDispatcher.tryFocus { baseED with idFocus := "a" } "a").2
        "b").1 = true := by
  decide

/-- C3 (amended): when two distinct elements call `tryFocus` in a frame
with no stale pending claim (`idNextFocus` empty or equal to the focus)
and the first claimant is not the currently focused id, the first call
returns true and records its id as the next-focused id, and the second
call returns false and changes nothing; moreover, provided the second
element is not the current focus, not the losing-focus id, and is not
nested directly in a focused open entry, its focus resolution that frame
(`checkFocus`, and `gainFocus` for a hovered element) yields a status
without FOCUSED at every request tier. -/
theorem c3_first_claim_wins (d : EventDispatcher) (id1 id2 : String)
    (hne : id1 ≠ id2) (h1e : id1 ≠ "")
    (hstale : d.idNextFocus = "" ∨ d.idNextFocus = d.idFocus)
    (h1f : id1 ≠ d.idFocus) (h2f : id2 ≠ d.idFocus)
    (h2l : id2 ≠ d.idLosingFocus)
    (htop : d.elementStack = [] ∨ EventDispatcher.backFocused d = false) :
    (d.tryFocus id1).1 = true ∧
    ((d.tryFocus id1).2).idNextFocus = id1 ∧
    (((d.tryFocus id1).2).tryFocus id2).1 = false ∧
    (((d.tryFocus id1).2).tryFocus id2).2 = (d.tryFocus id1).2 ∧
    (∀ req : RequestEvent,
      (EventDispatcher.checkFocus
          { (d.tryFocus id1).2 with idCurrent := id2 } req
          Event.NONE).1.focused = false ∧
      (EventDispatcher.gainFocus
          { (d.tryFocus id1).2 with idCurrent := id2 } req
          Event.NONE).1.focused = false) := by
  obtain ⟨pos, pp, pr, cur, hh, g, f, n, l, cmd, buf, st⟩ := d
  simp only at hstale h1f h2f h2l htop
  have hfirst :
      EventDispatcher.tryFocus
          ⟨pos, pp, pr, cur, hh, g, f, n, l, cmd, buf, st⟩ id1 =
        (true, ⟨pos, pp, pr, cur, hh, g, f, id1,
          if f ≠ "" then f else l, cmd, buf, st⟩) := by
    simp only [EventDispatcher.tryFocus]
    rcases hstale with hs | hs <;> subst hs <;> split_ifs <;> simp_all
  rw [hfirst]
  refine ⟨rfl, rfl, ?_, ?_, ?_⟩
  · simp only [EventDispatcher.tryFocus]
    rw [if_pos ⟨h1e, fun hc => h1f hc⟩]
  · simp only [EventDispatcher.tryFocus]
    rw [if_pos ⟨h1e, fun hc => h1f hc⟩]
  · intro req
    constructor
    · simp only [EventDispatcher.checkFocus]
      split_ifs <;> simp_all [StatusFlags.NONE]
    · simp only [EventDispatcher.gainFocus, EventDispatcher.backFocused]
      rcases htop with hs | hs <;>
        split_ifs <;>
          simp_all [StatusFlags.NONE, EventDispatcher.checkFocus,
            EventDispatcher.backFocused, EventDispatcher.backEvent]

/-- C3 witness: focused "f", claimants "a" then "b" from an empty stack. -/
theorem c3_first_claim_wins_witness :
    (EventDispatcher.tryFocus { baseED with idFocus := "f" } "a").1 = true ∧
    ((EventDispatcher.tryFocus
        (EventDispatcher.tryFocus { baseED with idFocus := "f" } "a").2
        "b").1 = false) := by
  obtain ⟨w1, -, w3, -, -⟩ :=
    c3_first_claim_wins { baseED with idFocus := "f" } "a" "b"
      (by decide) (by decide) (Or.inl rfl) (by decide) (by decide)
      (by decide) (Or.inl rfl)
  exact ⟨w1, w3⟩

/-- C1 counterexample: at the FOCUS tier (a "GRAB tier or higher"
request) an element that is already the focused id ("a"), hovering with
exactly the primary button newly pressed and no release, gets status
including GRABBED and event GRAB — but the grabbed id ends the call
*empty* (the focus command path clears it), so the element does not
become the sole holder of the grabbed id as the claim states. -/
theorem c1_counterexample :
    ((EventDispatcher.check { baseED with idFocus := "a", pointerPressed := 1 }
        RequestEvent.FOCUS ⟨0, 0, 10, 10⟩ "a").elementStack.head?.map
      (fun e => (e.status.grabbed, e.event))) = some (true, Event.GRAB) ∧
    (EventDispatcher.check { baseED with idFocus := "a", pointerPressed := 1 }
        RequestEvent.FOCUS ⟨0, 0, 10, 10⟩ "a").idGrabbed = "" ∧
    EventDispatcher.qualifiedId
        { baseED with idFocus := "a", pointerPressed := 1 } "a" = "a" := by
  decide

/-- C1 (amended): the grab lifecycle as claimed holds at the pure GRAB
tier for an element that passes hover resolution (fresh hover latch,
parent hovered or stack empty, pointer inside the rectangle), writing `q`
for the element's qualified id: (a) a fresh press (pressed mask exactly 1,
release mask 0) yields a GRABBED+HOVERED entry with event GRAB and makes
`q` the sole grabbed id; (b) with no new press or release, no pending
command, and `q` holding the grab, the entry stays GRABBED with event
NONE; (c) any release bit while `q` holds grab (and occupies no focus
slot) yields event ACTION and clears the grabbed id; (d) a press
combination other than exactly the primary button while `q` holds grab
(and occupies no focus slot) yields event CANCEL and clears the grabbed
id.  (At FOCUS/INPUT tiers the focus machinery can overwrite the event and
clear the grabbed id — see the counterexample.) -/
theorem c1_grab_lifecycle (d : EventDispatcher) (rect : Rect) (id q : String)
    (hq : q = EventDispatcher.qualifiedId d id) (_hid : id ≠ "")
    (hh : d.hadHover = false)
    (hhov : d.elementStack = [] ∨ EventDispatcher.backHovered d = true)
    (hin : SDL_PointInRect d.pointerPos rect = true) :
    (d.pointerPressed = 1 → d.pointerReleased = 0 →
      ∃ rest, (d.check RequestEvent.GRAB rect id).elementStack =
          ⟨id.length, rect, ⟨true, true, false⟩, Event.GRAB⟩ :: rest ∧
        (d.check RequestEvent.GRAB rect id).idGrabbed = q) ∧
    (d.pointerPressed = 0 → d.pointerReleased = 0 → d.idGrabbed = q →
      d.nextCommand = Command.NONE →
      ∃ rest, (d.check RequestEvent.GRAB rect id).elementStack =
          ⟨id.length, rect, ⟨true, true, false⟩, Event.NONE⟩ :: rest ∧
        (d.check RequestEvent.GRAB rect id).idGrabbed = q) ∧
    (d.pointerReleased ≠ 0 → d.idGrabbed = q →
      d.idFocus ≠ q → d.idLosingFocus ≠ q → d.idNextFocus ≠ q →
      ∃ rest, (d.check RequestEvent.GRAB rect id).elementStack =
          ⟨id.length, rect, ⟨true, false, false⟩, Event.ACTION⟩ :: rest ∧
        (d.check RequestEvent.GRAB rect id).idGrabbed = "") ∧
    (d.pointerReleased = 0 → d.pointerPressed ≠ 0 → d.pointerPressed ≠ 1 →
      d.idGrabbed = q → d.idFocus ≠ q → d.idLosingFocus ≠ q →
      d.idNextFocus ≠ q →
      ∃ rest, (d.check RequestEvent.GRAB rect id).elementStack =
          ⟨id.length, rect, ⟨true, false, false⟩, Event.CANCEL⟩ :: rest ∧
        (d.check RequestEvent.GRAB rect id).idGrabbed = "") := by
  obtain ⟨pos, pp, pr, cur, hhd, g, f, n, l, cmd, buf, st⟩ := d
  simp only at hq hh hhov hin
  subst hh
  rcases hhov with hs | hs
  · subst hs
    have hq2 : q = id := by simpa [EventDispatcher.qualifiedId] using hq
    subst hq2
    refine ⟨?_, ?_, ?_, ?_⟩
    · intro hp hr
      simp only at hp hr
      subst hp hr
      refine ⟨[], ?_, ?_⟩ <;>
        simp [EventDispatcher.check, EventDispatcher.checkHover,
          EventDispatcher.checkGrabOver, EventDispatcher.qualifiedId,
          EventDispatcher.backHovered, hin, StatusFlags.union,
          StatusFlags.HOVERED, StatusFlags.GRABBED]
    · intro hp hr hg hc
      simp only at hp hr hg hc
      subst hp hr hc hg
      refine ⟨[], ?_, ?_⟩ <;>
        simp [EventDispatcher.check, EventDispatcher.checkHover,
          EventDispatcher.checkGrabOver, EventDispatcher.checkGrabCommand,
          EventDispatcher.checkActionCommand, EventDispatcher.qualifiedId,
          EventDispatcher.backHovered, hin, StatusFlags.union,
          StatusFlags.HOVERED, StatusFlags.GRABBED, StatusFlags.NONE]
    · intro hr hg hf hl hn
      simp only at hr hg hf hl hn
      subst hg
      refine ⟨[], ?_, ?_⟩ <;>
        simp [EventDispatcher.check, EventDispatcher.checkHover,
          EventDispatcher.checkGrabOver, EventDispatcher.checkFocus,
          EventDispatcher.qualifiedId, EventDispatcher.backHovered, hin, hr,
          hf, hl, hn, StatusFlags.union, StatusFlags.HOVERED,
          StatusFlags.NONE]
    · intro hr hp0 hp1 hg hf hl hn
      simp only at hr hp0 hp1 hg hf hl hn
      subst hr hg
      refine ⟨[], ?_, ?_⟩ <;>
        simp [EventDispatcher.check, EventDispatcher.checkHover,
          EventDispatcher.checkGrabOver, EventDispatcher.checkFocus,
          EventDispatcher.qualifiedId, EventDispatcher.backHovered, hin,
          hp0, hp1, hf, hl, hn, StatusFlags.union, StatusFlags.HOVERED,
          StatusFlags.NONE]
  · cases st with
    | nil => simp [EventDispatcher.backHovered] at hs
    | cons e tl =>
      simp only [EventDispatcher.backHovered] at hs
      have hq2 : q = (cur.push groupNameSeparator) ++ id := by
        simpa [EventDispatcher.qualifiedId] using hq
      subst hq2
      refine ⟨?_, ?_, ?_, ?_⟩
      · intro hp hr
        simp only at hp hr
        subst hp hr
        refine ⟨e :: tl, ?_, ?_⟩ <;>
          simp [EventDispatcher.check, EventDispatcher.checkHover,
            EventDispatcher.checkGrabOver, EventDispatcher.qualifiedId,
            EventDispatcher.backHovered, hin, hs, StatusFlags.union,
            StatusFlags.HOVERED, StatusFlags.GRABBED]
      · intro hp hr hg hc
        simp only at hp hr hg hc
        subst hp hr hc hg
        refine ⟨e :: tl, ?_, ?_⟩ <;>
          simp [EventDispatcher.check, EventDispatcher.checkHover,
            EventDispatcher.checkGrabOver, EventDispatcher.checkGrabCommand,
            EventDispatcher.checkActionCommand, EventDispatcher.qualifiedId,
            EventDispatcher.backHovered, hin, hs, StatusFlags.union,
            StatusFlags.HOVERED, StatusFlags.GRABBED, StatusFlags.NONE]
      · intro hr hg hf hl hn
        simp only at hr hg hf hl hn
        subst hg
        refine ⟨e :: tl, ?_, ?_⟩ <;>
          simp [EventDispatcher.check, EventDispatcher.checkHover,
            EventDispatcher.checkGrabOver, EventDispatcher.checkFocus,
            EventDispatcher.qualifiedId, EventDispatcher.backHovered, hin,
            hs, hr, hf, hl, hn, StatusFlags.union, StatusFlags.HOVERED,
            StatusFlags.NONE]
      · intro hr hp0 hp1 hg hf hl hn
        simp only at hr hp0 hp1 hg hf hl hn
        subst hr hg
        refine ⟨e :: tl, ?_, ?_⟩ <;>
          simp [EventDispatcher.check, EventDispatcher.checkHover,
            EventDispatcher.checkGrabOver, EventDispatcher.checkFocus,
            EventDispatcher.qualifiedId, EventDispatcher.backHovered, hin,
            hs, hp0, hp1, hf, hl, hn, StatusFlags.union,
            StatusFlags.HOVERED, StatusFlags.NONE]

/-- C1 witness: the three-frame lifecycle at concrete states — fresh
press grabs "btn", the held frame reports GRABBED/NONE, a release reports
ACTION and clears the grab, and a second-button press reports CANCEL and
clears the grab. -/
theorem c1_grab_lifecycle_witness :
    (∃ rest,
      (EventDispatcher.check { baseED with pointerPressed := 1 }
          RequestEvent.GRAB ⟨0, 0, 10, 10⟩ "btn").elementStack =
        ⟨3, ⟨0, 0, 10, 10⟩, ⟨true, true, false⟩, Event.GRAB⟩ :: rest ∧
      (EventDispatcher.check { baseED with pointerPressed := 1 }
          RequestEvent.GRAB ⟨0, 0, 10, 10⟩ "btn").idGrabbed = "btn") ∧
    (∃ rest,
      (EventDispatcher.check { baseED with idGrabbed := "btn" }
          RequestEvent.GRAB ⟨0, 0, 10, 10⟩ "btn").elementStack =
        ⟨3, ⟨0, 0, 10, 10⟩, ⟨true, true, false⟩, Event.NONE⟩ :: rest ∧
      (EventDispatcher.check { baseED with idGrabbed := "btn" }
          RequestEvent.GRAB ⟨0, 0, 10, 10⟩ "btn").idGrabbed = "btn") ∧
    (∃ rest,
      (EventDispatcher.check
          { baseED with idGrabbed := "btn", pointerReleased := 1 }
          RequestEvent.GRAB ⟨0, 0, 10, 10⟩ "btn").elementStack =
        ⟨3, ⟨0, 0, 10, 10⟩, ⟨true, false, false⟩, Event.ACTION⟩ :: rest ∧
      (EventDispatcher.check
          { baseED with idGrabbed := "btn", pointerReleased := 1 }
          RequestEvent.GRAB ⟨0, 0, 10, 10⟩ "btn").idGrabbed = "") ∧
    (∃ rest,
      (EventDispatcher.check
          { baseED with idGrabbed := "btn", pointerPressed := 2 }
          RequestEvent.GRAB ⟨0, 0, 10, 10⟩ "btn").elementStack =
        ⟨3, ⟨0, 0, 10, 10⟩, ⟨true, false, false⟩, Event.CANCEL⟩ :: rest ∧
      (EventDispatcher.check
          { baseED with idGrabbed := "btn", pointerPressed := 2 }
          RequestEvent.GRAB ⟨0, 0, 10, 10⟩ "btn").idGrabbed = "") :=
  ⟨(c1_grab_lifecycle { baseED with pointerPressed := 1 } ⟨0, 0, 10, 10⟩
      "btn" "btn" rfl (by decide) rfl (Or.inl rfl) rfl).1 rfl rfl,
   (c1_grab_lifecycle { baseED with idGrabbed := "btn" } ⟨0, 0, 10, 10⟩
      "btn" "btn" rfl (by decide) rfl (Or.inl rfl) rfl).2.1 rfl rfl rfl rfl,
   ((c1_grab_lifecycle
      { baseED with idGrabbed := "btn", pointerReleased := 1 }
      ⟨0, 0, 10, 10⟩ "btn" "btn" rfl (by decide) rfl (Or.inl rfl)
      rfl).2.2.1 (by decide) rfl (by decide) (by decide) (by decide)),
   ((c1_grab_lifecycle
      { baseED with idGrabbed := "btn", pointerPressed := 2 }
      ⟨0, 0, 10, 10⟩ "btn" "btn" rfl (by decide) rfl (Or.inl rfl)
      rfl).2.2.2 rfl (by decide) (by decide) rfl (by decide) (by decide)
      (by decide))⟩

/-- C2 witness: popping a grabbed-and-hovered child above a grabbed parent
leaves the parent without the GRABBED flag. -/
theorem c2_pop_restores_exclusivity_witness :
    ∃ e,
      (EventDispatcher.popTarget
        { baseED with
          idCurrent := "p/c"
          elementStack :=
            [⟨1, ⟨0, 0, 50, 50⟩, ⟨true, true, false⟩, Event.GRAB⟩,
             ⟨1, ⟨0, 0, 100, 100⟩, ⟨true, true, false⟩, Event.GRAB⟩] }).elementStack
        = [e] ∧
      ((true : Bool) = true → e.status.grabbed = false) ∧
      ((false : Bool) = true → e.status.focused = false) :=
  c2_pop_restores_exclusivity _
    ⟨1, ⟨0, 0, 50, 50⟩, ⟨true, true, false⟩, Event.GRAB⟩
    ⟨1, ⟨0, 0, 100, 100⟩, ⟨true, true, false⟩, Event.GRAB⟩ [] rfl
